import Mathlib

/-!
Verification of the E2 simulator (`src/e2_simulator.py`) against its
natural-language specification.

Shallow embedding conventions:
* Python floats are modelled as rationals (`ℚ`); the arithmetic of the
  QoE-score derivation is exact at the inputs of interest.
* Randomness is modelled by explicit oracle draws: each call to
  `random.uniform(a, b)` becomes an input rational together with the
  contract `a ≤ x ≤ b` that Python's `random.uniform` documents;
  `random.choice(l)` becomes an input index; `random.random()` becomes an
  input rational in `[0, 1)`.
* Python exceptions are modelled with `Except PyExc`; `random.choice` on
  an empty list raises `IndexError`, and the network call raises
  `ConnectionError` or a generic exception according to a `NetBehavior`
  oracle.
-/

/-- Python exceptions relevant to the simulator. -/
inductive PyExc where
  | indexError
  | connectionError
  | genericExc
  deriving DecidableEq, Repr

/-- Log severities used by the `logging` calls in the source. -/
inductive LogLevel where
  | debugL
  | infoL
  | warningL
  | errorL
  deriving DecidableEq, Repr

/-- `random.choice(l)`: picks the element at the drawn index; raises
`IndexError` on an empty sequence, exactly as Python's `random.choice`. -/
def pyChoice {α : Type} (l : List α) (i : Nat) : Except PyExc α :=
  if h : l.length = 0 then .error .indexError
  else .ok (l.get ⟨i % l.length, Nat.mod_lt _ (Nat.pos_of_ne_zero h)⟩)

/-- Python `int()` on a float: truncation toward zero. -/
def pyInt (q : ℚ) : ℤ :=
  if q < 0 then ⌈q⌉ else ⌊q⌋

/-- `f"ue_{n:03d}"`: zero-pad to at least three digits. -/
def pad3 (n : Nat) : String :=
  if n < 10 then "00" ++ toString n
  else if n < 100 then "0" ++ toString n
  else toString n

/-- UE identifier rendering used by every generator. -/
def formatUe (n : Nat) : String := "ue_" ++ pad3 n

/-- One entry of the xApp destination registry (`config['xapps']`). -/
structure XappConfig where
  host : String
  port : Nat
  endpoint : String
  deriving DecidableEq, Repr

/-- The simulator configuration (`self.config` in `__init__`). -/
structure Config where
  xapps : List (String × XappConfig)
  cells : List String
  ues : List Nat
  interval : Nat
  deriving DecidableEq, Repr

/-- The configuration built by `E2Simulator.__init__`. -/
def defaultConfig : Config :=
  { xapps :=
      [ ("kpimon", ⟨"kpimon.ricxapp.svc.cluster.local", 8081, "/e2/indication"⟩)
      , ("traffic-steering", ⟨"traffic-steering.ricxapp.svc.cluster.local", 8081, "/e2/indication"⟩)
      , ("qoe-predictor", ⟨"qoe-predictor.ricxapp.svc.cluster.local", 8090, "/e2/indication"⟩)
      , ("ran-control", ⟨"ran-control.ricxapp.svc.cluster.local", 8100, "/e2/indication"⟩) ]
  , cells := ["cell_001", "cell_002", "cell_003"]
  , ues := List.range' 1 20
  , interval := 5 }

/-- The QoE metrics object nested in a QoE record. -/
structure QoeMetrics where
  video_bitrate_mbps : ℚ
  packet_loss_percent : ℚ
  latency_ms : ℚ
  jitter_ms : ℚ
  qoe_score : ℚ
  deriving DecidableEq, Repr

/-- A QoE record as produced by `generate_qoe_metrics`. -/
structure QoeRecord where
  timestamp : String
  ue_id : String
  cell_id : String
  metrics : QoeMetrics
  deriving DecidableEq, Repr

/-- Oracle draws consumed by one call of `generate_qoe_metrics`, in
source order: UE choice, the four uniform samples, the cell choice, and
the wall-clock timestamp string. -/
structure QoeDraws where
  ueIdx : Nat
  video_bitrate : ℚ
  packet_loss : ℚ
  latency : ℚ
  jitter : ℚ
  cellIdx : Nat
  nowIso : String
  deriving DecidableEq, Repr

/-- The QoE-score derivation exactly as the source computes it:
sequential subtractions from 100.0, then `max(0.0, min(100.0, ·))`. -/
def qoe_score_calc (packet_loss latency jitter : ℚ) : ℚ :=
  let s1 := 100 - packet_loss * 5
  let s2 := s1 - max 0 ((latency - 50) / 2)
  let s3 := s2 - jitter * 2
  max 0 (min 100 s3)

/-- Modelled from the spec's words (§4.1, §8): `qoe_score =
clamp(100 − 5·packet_loss − max(0,(latency−50)/2) − 2·jitter, 0, 100)`,
for comparison with the source computation `qoe_score_calc`. -/
def qoe_score_spec (packet_loss latency jitter : ℚ) : ℚ :=
  max 0 (min 100 (100 - 5 * packet_loss - max 0 ((latency - 50) / 2) - 2 * jitter))

/-- `generate_qoe_metrics`: samples the metrics from the draws and
derives the QoE score. -/
def generate_qoe_metrics (cfg : Config) (d : QoeDraws) : Except PyExc QoeRecord := do
  let ue ← pyChoice cfg.ues d.ueIdx
  let cell ← pyChoice cfg.cells d.cellIdx
  pure
    { timestamp := d.nowIso
    , ue_id := formatUe ue
    , cell_id := cell
    , metrics :=
      { video_bitrate_mbps := d.video_bitrate
      , packet_loss_percent := d.packet_loss
      , latency_ms := d.latency
      , jitter_ms := d.jitter
      , qoe_score := qoe_score_calc d.packet_loss d.latency d.jitter } }

/-- One named measurement of a KPI indication. -/
structure Measurement where
  name : String
  value : ℚ
  deriving DecidableEq, Repr

/-- A KPI indication as produced by `generate_kpi_indication`. -/
structure KpiIndication where
  timestamp : String
  cell_id : String
  ue_id : String
  measurements : List Measurement
  indication_sn : ℤ
  indication_type : String
  deriving DecidableEq, Repr

/-- Oracle draws consumed by one call of `generate_kpi_indication`:
the cell and UE choices, the ten uniform samples in source order, the
timestamp string, and the wall-clock seconds read by `time.time()`. -/
structure KpiDraws where
  cellIdx : Nat
  ueIdx : Nat
  packetLossDl : ℚ
  packetLossUl : ℚ
  thpDl : ℚ
  thpUl : ℚ
  prbDl : ℚ
  prbUl : ℚ
  rsrp : ℚ
  rsrq : ℚ
  sinr : ℚ
  connEstabSucc : ℚ
  nowIso : String
  nowSec : ℚ
  deriving DecidableEq, Repr

/-- `generate_kpi_indication`: builds the ten-measurement list in the
fixed source order and stamps `indication_sn = int(time.time() * 1000)`. -/
def generate_kpi_indication (cfg : Config) (d : KpiDraws) : Except PyExc KpiIndication := do
  let cell ← pyChoice cfg.cells d.cellIdx
  let ue ← pyChoice cfg.ues d.ueIdx
  pure
    { timestamp := d.nowIso
    , cell_id := cell
    , ue_id := formatUe ue
    , measurements :=
      [ ⟨"DRB.PacketLossDl", d.packetLossDl⟩
      , ⟨"DRB.PacketLossUl", d.packetLossUl⟩
      , ⟨"DRB.UEThpDl", d.thpDl⟩
      , ⟨"DRB.UEThpUl", d.thpUl⟩
      , ⟨"RRU.PrbUsedDl", d.prbDl⟩
      , ⟨"RRU.PrbUsedUl", d.prbUl⟩
      , ⟨"UE.RSRP", d.rsrp⟩
      , ⟨"UE.RSRQ", d.rsrq⟩
      , ⟨"UE.SINR", d.sinr⟩
      , ⟨"RRC.ConnEstabSucc", d.connEstabSucc⟩ ]
    , indication_sn := pyInt (d.nowSec * 1000)
    , indication_type := "report" }

/-- The contract of `random.uniform(a, b)`: the returned value lies
between the bounds. -/
def InUniform (a b x : ℚ) : Prop := a ≤ x ∧ x ≤ b

instance (a b x : ℚ) : Decidable (InUniform a b x) := by
  unfold InUniform; infer_instance

/-- The documented ranges of the ten KPI measurements, in the fixed
documented order (§4.1 of the spec). -/
def kpiRanges : List (String × ℚ × ℚ) :=
  [ ("DRB.PacketLossDl", 1/10, 5)
  , ("DRB.PacketLossUl", 1/10, 5)
  , ("DRB.UEThpDl", 10, 100)
  , ("DRB.UEThpUl", 5, 50)
  , ("RRU.PrbUsedDl", 30, 85)
  , ("RRU.PrbUsedUl", 20, 70)
  , ("UE.RSRP", -120, -80)
  , ("UE.RSRQ", -15, -5)
  , ("UE.SINR", 5, 25)
  , ("RRC.ConnEstabSucc", 95, 999/10) ]

/-- Validity of KPI draws: every uniform sample satisfies the contract
of the `random.uniform` call that produced it. -/
def ValidKpiDraws (d : KpiDraws) : Prop :=
  InUniform (1/10) 5 d.packetLossDl ∧ InUniform (1/10) 5 d.packetLossUl ∧
  InUniform 10 100 d.thpDl ∧ InUniform 5 50 d.thpUl ∧
  InUniform 30 85 d.prbDl ∧ InUniform 20 70 d.prbUl ∧
  InUniform (-120) (-80) d.rsrp ∧ InUniform (-15) (-5) d.rsrq ∧
  InUniform 5 25 d.sinr ∧ InUniform 95 (999/10) d.connEstabSucc

instance (d : KpiDraws) : Decidable (ValidKpiDraws d) := by
  unfold ValidKpiDraws; infer_instance

/-- A handover event as produced by `generate_handover_event`. -/
structure HandoverEvent where
  timestamp : String
  event_type : String
  ue_id : String
  source_cell : String
  target_cell : String
  rsrp : ℚ
  rsrq : ℚ
  trigger : String
  deriving DecidableEq, Repr

/-- Oracle draws consumed by one call of `generate_handover_event`. -/
structure HoDraws where
  sourceIdx : Nat
  targetIdx : Nat
  ueIdx : Nat
  rsrp : ℚ
  rsrq : ℚ
  nowIso : String
  deriving DecidableEq, Repr

/-- `generate_handover_event`: picks the source cell, then picks the
target with `random.choice([c for c in cells if c != source_cell])`;
with fewer than two distinct cells the candidate list is empty and the
choice raises `IndexError`, which this function propagates. -/
def generate_handover_event (cfg : Config) (d : HoDraws) : Except PyExc HandoverEvent := do
  let source ← pyChoice cfg.cells d.sourceIdx
  let target ← pyChoice (cfg.cells.filter (fun c => c ≠ source)) d.targetIdx
  let ue ← pyChoice cfg.ues d.ueIdx
  pure
    { timestamp := d.nowIso
    , event_type := "handover_request"
    , ue_id := formatUe ue
    , source_cell := source
    , target_cell := target
    , rsrp := d.rsrp
    , rsrq := d.rsrq
    , trigger := "A3_event" }

/-- A control event as produced by `generate_control_event`. -/
structure ControlEvent where
  timestamp : String
  cell_id : String
  event_type : String
  prb_usage : ℚ
  active_ues : Nat
  deriving DecidableEq, Repr

/-- Oracle draws consumed by one call of `generate_control_event`. -/
structure CtrlDraws where
  cellIdx : Nat
  eventTypeIdx : Nat
  prbUsage : ℚ
  activeUes : Nat
  nowIso : String
  deriving DecidableEq, Repr

/-- `generate_control_event`. -/
def generate_control_event (cfg : Config) (d : CtrlDraws) : Except PyExc ControlEvent := do
  let cell ← pyChoice cfg.cells d.cellIdx
  let ev ← pyChoice ["load_balancing", "interference_mitigation", "power_control"] d.eventTypeIdx
  pure
    { timestamp := d.nowIso
    , cell_id := cell
    , event_type := ev
    , prb_usage := d.prbUsage
    , active_ues := d.activeUes }

/-- Behaviour of the remote endpoint for one `requests.post` call:
either a response with a status code, a `ConnectionError`, or any other
exception (timeout, serialization, ...). -/
inductive NetBehavior where
  | ok (status : Nat)
  | connError
  | otherExc
  deriving DecidableEq, Repr

/-- The delivery outcome classification of one `send_to_xapp` call,
identifying which branch of the source executed. -/
inductive Outcome where
  | configError
  | delivered
  | rejected (status : Nat)
  | unreachable
  | malformed
  deriving DecidableEq, Repr

/-- The observable result of one `send_to_xapp` call: the returned
boolean, the branch taken, whether `requests.post` was issued, and the
severity of the log message emitted. -/
structure SendResult where
  returned : Bool
  outcome : Outcome
  networkCalled : Bool
  logged : LogLevel
  deriving DecidableEq, Repr

/-- The `try` block of `send_to_xapp`: registry lookup, then the POST.
A `None` lookup returns `False` without touching the network; the POST
itself may raise, which this function propagates. -/
def send_attempt (cfg : Config) (name : String) (net : NetBehavior) :
    Except PyExc SendResult :=
  match cfg.xapps.lookup name with
  | none => .ok ⟨false, .configError, false, .errorL⟩
  | some _ =>
    match net with
    | .ok s => if s = 200 then .ok ⟨true, .delivered, true, .debugL⟩
               else .ok ⟨false, .rejected s, true, .warningL⟩
    | .connError => .error .connectionError
    | .otherExc => .error .genericExc

/-- `send_to_xapp`: the `try` block followed by the two exception
handlers (`except requests.exceptions.ConnectionError`, then the
catch-all `except Exception`), both of which return `False`. -/
def send_to_xapp (cfg : Config) (name : String) (net : NetBehavior) : SendResult :=
  match send_attempt cfg name net with
  | .ok r => r
  | .error .connectionError => ⟨false, .unreachable, true, .debugL⟩
  | .error _ => ⟨false, .malformed, true, .errorL⟩

/-- The caller-visible behaviour of `send_to_xapp` with exception flow
made explicit: `.error` would mean an exception escaping to the caller. -/
def send_to_xapp_run (cfg : Config) (name : String) (net : NetBehavior) :
    Except PyExc Bool :=
  match send_attempt cfg name net with
  | .ok r => .ok r.returned
  | .error .connectionError => .ok false
  | .error .indexError => .ok false
  | .error .genericExc => .ok false

/-- A record of any of the four kinds, as passed to `send_to_xapp`. -/
inductive GenRecord where
  | kpi (r : KpiIndication)
  | ho (r : HandoverEvent)
  | qoe (r : QoeRecord)
  | ctrl (r : ControlEvent)
  deriving DecidableEq, Repr

/-- One observable step of the simulation loop body: a delivery attempt
of a record to a named destination, or the inter-tick sleep. -/
inductive Event where
  | sent (dest : String) (r : GenRecord) (res : SendResult)
  | slept (seconds : Nat)
  deriving DecidableEq, Repr

/-- Oracle draws consumed by one tick of `simulation_loop`: the draws of
each generator in source order, the two `random.random()` trial values,
and the network behaviour seen by each of the four delivery attempts. -/
structure TickDraws where
  kpi : KpiDraws
  netKpi : NetBehavior
  hoRand : ℚ
  ho : HoDraws
  netHo : NetBehavior
  qoe : QoeDraws
  netQoe : NetBehavior
  ctrlRand : ℚ
  ctrl : CtrlDraws
  netCtrl : NetBehavior
  deriving DecidableEq, Repr

/-- One iteration of the `while self.running` body of `simulation_loop`:
KPI always, handover when `random.random() < 0.3`, QoE always, control
when `random.random() < 0.2`, then the sleep. A generator exception
propagates (there is no handler in the loop), aborting the remaining
steps of the tick. -/
def simulation_tick (cfg : Config) (d : TickDraws) : Except PyExc (List Event) := do
  let kpiR ← generate_kpi_indication cfg d.kpi
  let e1 := Event.sent "kpimon" (.kpi kpiR) (send_to_xapp cfg "kpimon" d.netKpi)
  let hoEvents ←
    if d.hoRand < 3/10 then do
      let hoR ← generate_handover_event cfg d.ho
      pure [Event.sent "traffic-steering" (.ho hoR) (send_to_xapp cfg "traffic-steering" d.netHo)]
    else pure []
  let qoeR ← generate_qoe_metrics cfg d.qoe
  let e3 := Event.sent "qoe-predictor" (.qoe qoeR) (send_to_xapp cfg "qoe-predictor" d.netQoe)
  let ctrlEvents ←
    if d.ctrlRand < 1/5 then do
      let ctrlR ← generate_control_event cfg d.ctrl
      pure [Event.sent "ran-control" (.ctrl ctrlR) (send_to_xapp cfg "ran-control" d.netCtrl)]
    else pure []
  pure ([e1] ++ hoEvents ++ [e3] ++ ctrlEvents ++ [Event.slept cfg.interval])

/-- `simulation_loop`, driven by the sequence of values the `running`
flag has at each `while` check, paired with the draws the tick would
consume. The loop exits as soon as a `false` reading is observed; an
exception escaping a tick terminates the loop (the thread dies). -/
def simulation_loop (cfg : Config) : List (Bool × TickDraws) → Except PyExc (List Event)
  | [] => .ok []
  | (false, _) :: _ => .ok []
  | (true, d) :: rest => do
    let es ← simulation_tick cfg d
    let more ← simulation_loop cfg rest
    pure (es ++ more)

/-- Concrete QoE draws used as a witness input: packet loss 0, latency
50 ms, jitter 1 ms. -/
def qd0 : QoeDraws := ⟨0, 4, 0, 50, 1, 0, "t0"⟩

/-- The QoE record `generate_qoe_metrics` produces from `qd0` under the
default configuration. -/
def qr0 : QoeRecord := ⟨"t0", "ue_001", "cell_001", ⟨4, 0, 50, 1, 98⟩⟩

/-- Concrete KPI draws used as a witness input: every sample at the low
end of its documented range. -/
def kd0 : KpiDraws := ⟨0, 0, 1/10, 1/10, 10, 5, 30, 20, -120, -15, 5, 95, "t0", 0⟩

/-- The KPI indication `generate_kpi_indication` produces from `kd0`
under the default configuration. -/
def kr0 : KpiIndication :=
  ⟨"t0", "cell_001", "ue_001",
    [ ⟨"DRB.PacketLossDl", 1/10⟩, ⟨"DRB.PacketLossUl", 1/10⟩
    , ⟨"DRB.UEThpDl", 10⟩, ⟨"DRB.UEThpUl", 5⟩
    , ⟨"RRU.PrbUsedDl", 30⟩, ⟨"RRU.PrbUsedUl", 20⟩
    , ⟨"UE.RSRP", -120⟩, ⟨"UE.RSRQ", -15⟩
    , ⟨"UE.SINR", 5⟩, ⟨"RRC.ConnEstabSucc", 95⟩ ], 0, "report"⟩

/-- Concrete handover draws used as a witness input. -/
def hd0 : HoDraws := ⟨0, 0, 0, -100, -10, "t0"⟩

/-- The handover event `generate_handover_event` produces from `hd0`
under the default configuration. -/
def hr0 : HandoverEvent :=
  ⟨"t0", "handover_request", "ue_001", "cell_001", "cell_002", -100, -10, "A3_event"⟩

/-- Concrete control draws used as a witness input. -/
def cd0 : CtrlDraws := ⟨0, 0, 80, 25, "t0"⟩

/-- Concrete tick draws used as a witness input: both probabilistic
trials drawn at 0, so the handover and control steps trigger. -/
def td0 : TickDraws := ⟨kd0, .ok 200, 0, hd0, .ok 200, qd0, .ok 200, 0, cd0, .ok 200⟩

/-- The default configuration with only one cell configured: the
setting in which a handover generation attempt raises `IndexError`. -/
def oneCellConfig : Config := { defaultConfig with cells := ["cell_001"] }

/-- Concrete tick draws in which every delivery attempt hits a
connection failure. -/
def tdFail : TickDraws :=
  ⟨kd0, .connError, 0, hd0, .connError, qd0, .connError, 0, cd0, .connError⟩

theorem pyChoice_ok_mem {α : Type} {l : List α} {i : Nat} {a : α}
    (h : pyChoice l i = .ok a) : a ∈ l := by
  unfold pyChoice at h
  split at h
  · exact absurd h (by simp)
  · injection h with h; exact h ▸ l.get_mem _ _

theorem pyChoice_of_ne_nil {α : Type} {l : List α} (i : Nat) (h : l ≠ []) :
    ∃ a, pyChoice l i = .ok a ∧ a ∈ l := by
  unfold pyChoice
  rw [dif_neg (by simpa using h)]
  exact ⟨_, rfl, l.get_mem _ _⟩

theorem qoe_calc_eq_spec (p l j : ℚ) : qoe_score_calc p l j = qoe_score_spec p l j := by
  unfold qoe_score_calc qoe_score_spec
  ring_nf

/-- C1: for every generated QoE record, `qoe_score` equals the clamp
formula `clamp(100 − 5·packet_loss − max(0,(latency−50)/2) − 2·jitter,
0, 100)` applied to the record's own sampled metrics, and the boundary
inputs `(0, 50, 1)` and `(2, 100, 20)` evaluate to 98.0 and 25.0. -/
theorem qoe_score_derivation :
    (∀ (cfg : Config) (d : QoeDraws) (r : QoeRecord),
        generate_qoe_metrics cfg d = .ok r →
        r.metrics.qoe_score =
          qoe_score_spec r.metrics.packet_loss_percent r.metrics.latency_ms
            r.metrics.jitter_ms) ∧
    qoe_score_spec 0 50 1 = 98 ∧ qoe_score_spec 2 100 20 = 25 := by
  refine ⟨?_, by norm_num [qoe_score_spec], by norm_num [qoe_score_spec]⟩
  intro cfg d r h
  unfold generate_qoe_metrics at h
  cases hu : pyChoice cfg.ues d.ueIdx with
  | error e => rw [hu] at h; simp [bind, Except.bind] at h
  | ok ue =>
    cases hc : pyChoice cfg.cells d.cellIdx with
    | error e => rw [hu, hc] at h; simp [bind, Except.bind] at h
    | ok cell =>
      rw [hu, hc] at h
      simp only [bind, Except.bind, pure, Except.pure] at h
      injection h with h
      rw [← h]
      exact qoe_calc_eq_spec d.packet_loss d.latency d.jitter

/-- Witness for C1 at the concrete input `qd0` under `defaultConfig`. -/
theorem qoe_score_derivation_witness :
    generate_qoe_metrics defaultConfig qd0 = .ok qr0 ∧
    qr0.metrics.qoe_score =
      qoe_score_spec qr0.metrics.packet_loss_percent qr0.metrics.latency_ms
        qr0.metrics.jitter_ms := by
  have hgen : generate_qoe_metrics defaultConfig qd0 = .ok qr0 := by
    simp [generate_qoe_metrics, pyChoice, defaultConfig, qd0, qr0, formatUe, pad3,
      qoe_score_calc, bind, Except.bind, pure, Except.pure, List.range']
    norm_num
    rfl
  exact ⟨hgen, qoe_score_derivation.1 defaultConfig qd0 qr0 hgen⟩

/-- C3: every successfully generated KPI indication carries exactly the
ten documented measurements, each name once, in the fixed documented
order, and (draws satisfying the `random.uniform` contracts) each value
within its documented range. -/
theorem kpi_measurements_valid (cfg : Config) (d : KpiDraws) (r : KpiIndication)
    (hd : ValidKpiDraws d) (h : generate_kpi_indication cfg d = .ok r) :
    r.measurements.length = 10 ∧
    r.measurements.map Measurement.name =
      ["DRB.PacketLossDl", "DRB.PacketLossUl", "DRB.UEThpDl", "DRB.UEThpUl",
       "RRU.PrbUsedDl", "RRU.PrbUsedUl", "UE.RSRP", "UE.RSRQ", "UE.SINR",
       "RRC.ConnEstabSucc"] ∧
    (r.measurements.map Measurement.name).Nodup ∧
    List.Forall₂
      (fun (m : Measurement) rng => m.name = rng.1 ∧ rng.2.1 ≤ m.value ∧ m.value ≤ rng.2.2)
      r.measurements kpiRanges := by
  unfold generate_kpi_indication at h
  cases hc : pyChoice cfg.cells d.cellIdx with
  | error e => rw [hc] at h; simp [bind, Except.bind] at h
  | ok cell =>
    cases hu : pyChoice cfg.ues d.ueIdx with
    | error e => rw [hc, hu] at h; simp [bind, Except.bind] at h
    | ok ue =>
      rw [hc, hu] at h
      simp only [bind, Except.bind, pure, Except.pure] at h
      injection h with h
      obtain ⟨h1, h2, h3, h4, h5, h6, h7, h8, h9, h10⟩ := hd
      rw [← h]
      refine ⟨rfl, rfl, ?_, ?_⟩
      · show (["DRB.PacketLossDl", "DRB.PacketLossUl", "DRB.UEThpDl", "DRB.UEThpUl",
          "RRU.PrbUsedDl", "RRU.PrbUsedUl", "UE.RSRP", "UE.RSRQ", "UE.SINR",
          "RRC.ConnEstabSucc"] : List String).Nodup
        decide
      · unfold kpiRanges
        exact .cons ⟨rfl, h1.1, h1.2⟩ (.cons ⟨rfl, h2.1, h2.2⟩ (.cons ⟨rfl, h3.1, h3.2⟩
          (.cons ⟨rfl, h4.1, h4.2⟩ (.cons ⟨rfl, h5.1, h5.2⟩ (.cons ⟨rfl, h6.1, h6.2⟩
          (.cons ⟨rfl, h7.1, h7.2⟩ (.cons ⟨rfl, h8.1, h8.2⟩ (.cons ⟨rfl, h9.1, h9.2⟩
          (.cons ⟨rfl, h10.1, h10.2⟩ .nil)))))))))

/-- Witness for C3 at the concrete input `kd0` under `defaultConfig`. -/
theorem kpi_measurements_valid_witness :
    kr0.measurements.length = 10 ∧
    kr0.measurements.map Measurement.name =
      ["DRB.PacketLossDl", "DRB.PacketLossUl", "DRB.UEThpDl", "DRB.UEThpUl",
       "RRU.PrbUsedDl", "RRU.PrbUsedUl", "UE.RSRP", "UE.RSRQ", "UE.SINR",
       "RRC.ConnEstabSucc"] ∧
    (kr0.measurements.map Measurement.name).Nodup ∧
    List.Forall₂
      (fun (m : Measurement) rng => m.name = rng.1 ∧ rng.2.1 ≤ m.value ∧ m.value ≤ rng.2.2)
      kr0.measurements kpiRanges :=
  kpi_measurements_valid defaultConfig kd0 kr0
    (by norm_num [ValidKpiDraws, InUniform, kd0])
    (by simp [generate_kpi_indication, pyChoice, defaultConfig, kd0, kr0, formatUe,
          pad3, pyInt, bind, Except.bind, pure, Except.pure, List.range']
        rfl)

theorem kd0_gen : generate_kpi_indication defaultConfig kd0 = .ok kr0 := by
  simp [generate_kpi_indication, pyChoice, defaultConfig, kd0, kr0, formatUe,
    pad3, pyInt, bind, Except.bind, pure, Except.pure, List.range']
  rfl

theorem generate_kpi_sn {cfg : Config} {d : KpiDraws} {r : KpiIndication}
    (h : generate_kpi_indication cfg d = .ok r) :
    r.indication_sn = pyInt (d.nowSec * 1000) := by
  unfold generate_kpi_indication at h
  cases hc : pyChoice cfg.cells d.cellIdx with
  | error e => rw [hc] at h; simp [bind, Except.bind] at h
  | ok cell =>
    cases hu : pyChoice cfg.ues d.ueIdx with
    | error e => rw [hc, hu] at h; simp [bind, Except.bind] at h
    | ok ue =>
      rw [hc, hu] at h
      simp only [bind, Except.bind, pure, Except.pure] at h
      injection h with h
      rw [← h]

theorem pyInt_mono_nonneg {a b : ℚ} (ha : 0 ≤ a) (hab : a ≤ b) :
    pyInt a ≤ pyInt b := by
  unfold pyInt
  rw [if_neg (not_lt.mpr ha), if_neg (not_lt.mpr (ha.trans hab))]
  exact Int.floor_mono hab

/-- C9: every generated KPI indication stamps `indication_sn` with the
wall-clock reading in milliseconds truncated to an integer, and under a
non-decreasing (non-negative) clock successive indications carry
non-decreasing sequence numbers. -/
theorem indication_sn_wallclock :
    (∀ (cfg : Config) (d : KpiDraws) (r : KpiIndication),
        generate_kpi_indication cfg d = .ok r →
        r.indication_sn = pyInt (d.nowSec * 1000)) ∧
    (∀ (cfg₁ cfg₂ : Config) (d₁ d₂ : KpiDraws) (r₁ r₂ : KpiIndication),
        generate_kpi_indication cfg₁ d₁ = .ok r₁ →
        generate_kpi_indication cfg₂ d₂ = .ok r₂ →
        0 ≤ d₁.nowSec → d₁.nowSec ≤ d₂.nowSec →
        r₁.indication_sn ≤ r₂.indication_sn) := by
  refine ⟨fun _ _ _ h => generate_kpi_sn h, ?_⟩
  intro cfg₁ cfg₂ d₁ d₂ r₁ r₂ h₁ h₂ hpos hle
  rw [generate_kpi_sn h₁, generate_kpi_sn h₂]
  exact pyInt_mono_nonneg (by positivity)
    (mul_le_mul_of_nonneg_right hle (by norm_num))

/-- Witness for C9 at the concrete input `kd0` under `defaultConfig`. -/
theorem indication_sn_wallclock_witness :
    kr0.indication_sn = pyInt (kd0.nowSec * 1000) ∧
    kr0.indication_sn ≤ kr0.indication_sn :=
  ⟨indication_sn_wallclock.1 defaultConfig kd0 kr0 kd0_gen,
   indication_sn_wallclock.2 defaultConfig defaultConfig kd0 kd0 kr0 kr0
     kd0_gen kd0_gen (by norm_num [kd0]) le_rfl⟩

/-- C4: every successfully generated handover event has a target cell
distinct from its source, both drawn from the configured cells; the
target is picked by a uniform choice over the candidate list
`cells.filter (· ≠ source)`, and (for duplicate-free cell lists) that
list contains each admissible cell exactly once, so the choice is
uniform over the configured cells excluding the source. -/
theorem handover_cells_valid (cfg : Config) (d : HoDraws) (r : HandoverEvent)
    (h : generate_handover_event cfg d = .ok r) :
    r.target_cell ≠ r.source_cell ∧
    r.source_cell ∈ cfg.cells ∧
    r.target_cell ∈ cfg.cells ∧
    r.target_cell ∈ cfg.cells.filter (fun c => c ≠ r.source_cell) ∧
    (cfg.cells.Nodup →
      ∀ c, (cfg.cells.filter (fun x => x ≠ r.source_cell)).count c =
        if c ∈ cfg.cells ∧ c ≠ r.source_cell then 1 else 0) := by
  unfold generate_handover_event at h
  cases hs : pyChoice cfg.cells d.sourceIdx with
  | error e => rw [hs] at h; simp [bind, Except.bind] at h
  | ok source =>
    rw [hs] at h
    simp only [bind, Except.bind] at h
    cases ht : pyChoice (cfg.cells.filter (fun c => c ≠ source)) d.targetIdx with
    | error e => rw [ht] at h; simp [bind, Except.bind] at h
    | ok target =>
      rw [ht] at h
      simp only [bind, Except.bind] at h
      cases hu : pyChoice cfg.ues d.ueIdx with
      | error e => rw [hu] at h; simp [bind, Except.bind] at h
      | ok ue =>
        rw [hu] at h
        simp only [bind, Except.bind, pure, Except.pure] at h
        injection h with h
        have hsrc : r.source_cell = source := by rw [← h]
        have htgt : r.target_cell = target := by rw [← h]
        have htmem := pyChoice_ok_mem ht
        have htf := List.mem_filter.mp htmem
        have htne : target ≠ source := by simpa using htf.2
        subst hsrc htgt
        refine ⟨htne, pyChoice_ok_mem hs, htf.1, htmem, ?_⟩
        intro hnd c
        by_cases hcm : c ∈ cfg.cells
        · by_cases hcs : c ≠ r.source_cell
          · rw [if_pos ⟨hcm, hcs⟩, List.count_filter (by simpa using hcs)]
            exact List.count_eq_one_of_mem hnd hcm
          · rw [if_neg (fun hcon => hcs hcon.2)]
            refine List.count_eq_zero.mpr (fun hmem => ?_)
            exact hcs (by simpa using (List.mem_filter.mp hmem).2)
        · rw [if_neg (fun hcon => hcm hcon.1)]
          exact List.count_eq_zero.mpr
            (fun hmem => hcm (List.mem_filter.mp hmem).1)

theorem hd0_gen : generate_handover_event defaultConfig hd0 = .ok hr0 := by
  simp [generate_handover_event, pyChoice, defaultConfig, hd0, hr0, formatUe,
    pad3, bind, Except.bind, pure, Except.pure, List.range']
  rfl

/-- Witness for C4 at the concrete input `hd0` under `defaultConfig`. -/
theorem handover_cells_valid_witness :
    hr0.target_cell ≠ hr0.source_cell ∧
    hr0.source_cell ∈ defaultConfig.cells ∧
    hr0.target_cell ∈ defaultConfig.cells ∧
    hr0.target_cell ∈ defaultConfig.cells.filter (fun c => c ≠ hr0.source_cell) ∧
    (defaultConfig.cells.filter (fun x => x ≠ hr0.source_cell)).count "cell_003" =
      if "cell_003" ∈ defaultConfig.cells ∧ "cell_003" ≠ hr0.source_cell then 1 else 0 := by
  obtain ⟨a, b, c, d, e⟩ := handover_cells_valid defaultConfig hd0 hr0 hd0_gen
  exact ⟨a, b, c, d, e (by decide) "cell_003"⟩

/-- C5: delivery to a destination name absent from the registry takes
the configuration-error branch: it returns `False` after logging at
error severity (a branch distinct from the `unreachable` network-failure
branch, which logs at debug severity), and no network call is issued,
whatever the network would have done. -/
theorem send_unknown_dest (cfg : Config) (name : String) (net : NetBehavior)
    (h : cfg.xapps.lookup name = none) :
    send_to_xapp cfg name net = ⟨false, .configError, false, .errorL⟩ ∧
    (send_to_xapp cfg name net).outcome ≠ Outcome.unreachable ∧
    (send_to_xapp cfg name net).logged ≠ LogLevel.debugL ∧
    (send_to_xapp cfg name net).networkCalled = false := by
  have hres : send_to_xapp cfg name net = ⟨false, .configError, false, .errorL⟩ := by
    unfold send_to_xapp send_attempt
    rw [h]
  rw [hres]
  exact ⟨rfl, by simp, by simp, rfl⟩

/-- Witness for C5 at a concrete unknown destination name. -/
theorem send_unknown_dest_witness :
    send_to_xapp defaultConfig "bogus" .connError = ⟨false, .configError, false, .errorL⟩ ∧
    (send_to_xapp defaultConfig "bogus" .connError).outcome ≠ Outcome.unreachable ∧
    (send_to_xapp defaultConfig "bogus" .connError).logged ≠ LogLevel.debugL ∧
    (send_to_xapp defaultConfig "bogus" .connError).networkCalled = false :=
  send_unknown_dest defaultConfig "bogus" .connError (by rfl)

/-- C6: delivery to a known destination always lands in one of the four
outcomes delivered / rejected / unreachable / malformed; it is delivered
exactly when the remote acknowledged with HTTP 200, and a reachable
remote returning any other status yields `rejected` with that status. -/
theorem send_known_dest (cfg : Config) (name : String) (net : NetBehavior)
    (xc : XappConfig) (h : cfg.xapps.lookup name = some xc) :
    ((send_to_xapp cfg name net).outcome = .delivered ∨
     (∃ s, s ≠ 200 ∧ (send_to_xapp cfg name net).outcome = .rejected s) ∨
     (send_to_xapp cfg name net).outcome = .unreachable ∨
     (send_to_xapp cfg name net).outcome = .malformed) ∧
    ((send_to_xapp cfg name net).outcome = .delivered ↔ net = .ok 200) ∧
    (∀ s, net = .ok s → s ≠ 200 → (send_to_xapp cfg name net).outcome = .rejected s) ∧
    ((send_to_xapp cfg name net).returned = true ↔ net = .ok 200) := by
  unfold send_to_xapp send_attempt
  rw [h]
  cases net with
  | ok s =>
    by_cases h200 : s = 200
    · subst h200
      simp
    · simp only [if_neg h200]
      refine ⟨.inr (.inl ⟨s, h200, rfl⟩), ?_, ?_, ?_⟩
      · simp [h200]
      · intro s' hs' _
        injection hs' with hs'
        rw [hs']
      · simp [h200]
  | connError =>
    refine ⟨.inr (.inr (.inl rfl)), by simp, ?_, by simp⟩
    intro s hs
    cases hs
  | otherExc =>
    refine ⟨.inr (.inr (.inr rfl)), by simp, ?_, by simp⟩
    intro s hs
    cases hs

/-- Witness for C6 at the concrete destination `kpimon` with a remote
that answers HTTP 404. -/
theorem send_known_dest_witness :
    ((send_to_xapp defaultConfig "kpimon" (.ok 404)).outcome = .delivered ∨
     (∃ s, s ≠ 200 ∧ (send_to_xapp defaultConfig "kpimon" (.ok 404)).outcome = .rejected s) ∨
     (send_to_xapp defaultConfig "kpimon" (.ok 404)).outcome = .unreachable ∨
     (send_to_xapp defaultConfig "kpimon" (.ok 404)).outcome = .malformed) ∧
    ((send_to_xapp defaultConfig "kpimon" (.ok 404)).outcome = .delivered ↔
      (NetBehavior.ok 404) = .ok 200) ∧
    (∀ s, (NetBehavior.ok 404) = .ok s → s ≠ 200 →
      (send_to_xapp defaultConfig "kpimon" (.ok 404)).outcome = .rejected s) ∧
    ((send_to_xapp defaultConfig "kpimon" (.ok 404)).returned = true ↔
      (NetBehavior.ok 404) = .ok 200) :=
  send_known_dest defaultConfig "kpimon" (.ok 404) _ (by rfl)

/-- C10: `send_to_xapp` is total on every destination name, record and
network behaviour: the two exception handlers cover every exception the
body can raise, so the call always returns the boolean of the branch
taken and never propagates an exception to the simulation loop. -/
theorem send_to_xapp_total (cfg : Config) (name : String) (net : NetBehavior) :
    send_to_xapp_run cfg name net = .ok (send_to_xapp cfg name net).returned := by
  unfold send_to_xapp_run send_to_xapp
  cases hsa : send_attempt cfg name net with
  | ok r => rfl
  | error e => cases e <;> rfl

theorem bind_ok {α β : Type} {x : Except PyExc α} {a : α} (h : x = .ok a)
    (f : α → Except PyExc β) : x >>= f = f a := by subst h; rfl

theorem pure_bind_except {α β : Type} (a : α) (f : α → Except PyExc β) :
    (pure a : Except PyExc α) >>= f = f a := rfl

theorem generate_kpi_ok (cfg : Config) (d : KpiDraws) (hc : cfg.cells ≠ [])
    (hu : cfg.ues ≠ []) : ∃ r, generate_kpi_indication cfg d = .ok r := by
  obtain ⟨cell, hcell, -⟩ := pyChoice_of_ne_nil d.cellIdx hc
  obtain ⟨ue, hue, -⟩ := pyChoice_of_ne_nil d.ueIdx hu
  apply Exists.intro
  unfold generate_kpi_indication
  simp only [bind_ok hcell, bind_ok hue]
  rfl

theorem generate_qoe_ok (cfg : Config) (d : QoeDraws) (hc : cfg.cells ≠ [])
    (hu : cfg.ues ≠ []) : ∃ r, generate_qoe_metrics cfg d = .ok r := by
  obtain ⟨ue, hue, -⟩ := pyChoice_of_ne_nil d.ueIdx hu
  obtain ⟨cell, hcell, -⟩ := pyChoice_of_ne_nil d.cellIdx hc
  apply Exists.intro
  unfold generate_qoe_metrics
  simp only [bind_ok hue, bind_ok hcell]
  rfl

theorem generate_ctrl_ok (cfg : Config) (d : CtrlDraws) (hc : cfg.cells ≠ []) :
    ∃ r, generate_control_event cfg d = .ok r := by
  obtain ⟨cell, hcell, -⟩ := pyChoice_of_ne_nil d.cellIdx hc
  obtain ⟨ev, hev, -⟩ := pyChoice_of_ne_nil (l := ["load_balancing",
    "interference_mitigation", "power_control"]) d.eventTypeIdx (by simp)
  apply Exists.intro
  unfold generate_control_event
  simp only [bind_ok hcell, bind_ok hev]
  rfl

theorem filter_ne_nonempty {l : List String} {a : String} (h2 : 2 ≤ l.length)
    (hnd : l.Nodup) : l.filter (fun c => c ≠ a) ≠ [] := by
  rcases l with - | ⟨x, - | ⟨y, rest⟩⟩
  · simp at h2
  · simp at h2
  · intro hemp
    have hall := List.filter_eq_nil_iff.mp hemp
    have hxa : x = a := by simpa using hall x (by simp)
    have hya : y = a := by simpa using hall y (by simp)
    have hxy : x ≠ y := fun hxy =>
      (List.nodup_cons.mp hnd).1 (hxy ▸ List.mem_cons_self y rest)
    exact hxy (hxa.trans hya.symm)

theorem generate_ho_ok (cfg : Config) (d : HoDraws) (h2 : 2 ≤ cfg.cells.length)
    (hnd : cfg.cells.Nodup) (hu : cfg.ues ≠ []) :
    ∃ r, generate_handover_event cfg d = .ok r := by
  have hc : cfg.cells ≠ [] := by intro h; rw [h] at h2; simp at h2
  obtain ⟨source, hs, -⟩ := pyChoice_of_ne_nil d.sourceIdx hc
  obtain ⟨target, ht, -⟩ :=
    pyChoice_of_ne_nil d.targetIdx (filter_ne_nonempty h2 hnd (a := source))
  obtain ⟨ue, hue, -⟩ := pyChoice_of_ne_nil d.ueIdx hu
  apply Exists.intro
  unfold generate_handover_event
  simp only [bind_ok hs, bind_ok ht, bind_ok hue]
  rfl

theorem simulation_tick_trace (cfg : Config) (d : TickDraws)
    (h2 : 2 ≤ cfg.cells.length) (hnd : cfg.cells.Nodup) (hu : cfg.ues ≠ []) :
    ∃ (kpiR : KpiIndication) (hoR : HandoverEvent) (qoeR : QoeRecord)
      (ctrlR : ControlEvent),
      generate_kpi_indication cfg d.kpi = .ok kpiR ∧
      generate_handover_event cfg d.ho = .ok hoR ∧
      generate_qoe_metrics cfg d.qoe = .ok qoeR ∧
      generate_control_event cfg d.ctrl = .ok ctrlR ∧
      simulation_tick cfg d = .ok
        ([Event.sent "kpimon" (.kpi kpiR) (send_to_xapp cfg "kpimon" d.netKpi)]
          ++ (if d.hoRand < 3/10 then
                [Event.sent "traffic-steering" (.ho hoR)
                  (send_to_xapp cfg "traffic-steering" d.netHo)]
              else [])
          ++ [Event.sent "qoe-predictor" (.qoe qoeR)
                (send_to_xapp cfg "qoe-predictor" d.netQoe)]
          ++ (if d.ctrlRand < 1/5 then
                [Event.sent "ran-control" (.ctrl ctrlR)
                  (send_to_xapp cfg "ran-control" d.netCtrl)]
              else [])
          ++ [Event.slept cfg.interval]) := by
  have hc : cfg.cells ≠ [] := by intro h; rw [h] at h2; simp at h2
  obtain ⟨kpiR, hkpi⟩ := generate_kpi_ok cfg d.kpi hc hu
  obtain ⟨hoR, hho⟩ := generate_ho_ok cfg d.ho h2 hnd hu
  obtain ⟨qoeR, hqoe⟩ := generate_qoe_ok cfg d.qoe hc hu
  obtain ⟨ctrlR, hctrl⟩ := generate_ctrl_ok cfg d.ctrl hc
  refine ⟨kpiR, hoR, qoeR, ctrlR, hkpi, hho, hqoe, hctrl, ?_⟩
  unfold simulation_tick
  by_cases h3 : d.hoRand < 3/10 <;> by_cases h5 : d.ctrlRand < 1/5
  · simp only [if_pos h3, if_pos h5, bind_ok hkpi, bind_ok hho, bind_ok hqoe,
      bind_ok hctrl, pure_bind_except]
    rfl
  · simp only [if_pos h3, if_neg h5, bind_ok hkpi, bind_ok hho, bind_ok hqoe,
      pure_bind_except]
    rfl
  · simp only [if_neg h3, if_pos h5, bind_ok hkpi, bind_ok hqoe, bind_ok hctrl,
      pure_bind_except]
    rfl
  · simp only [if_neg h3, if_neg h5, bind_ok hkpi, bind_ok hqoe, pure_bind_except]
    rfl

theorem bind_error {α β : Type} {x : Except PyExc α} {e : PyExc} (h : x = .error e)
    (f : α → Except PyExc β) : x >>= f = .error e := by subst h; rfl

/-- C7: in every tick with a well-formed configuration (at least two
distinct cells, a nonempty UE registry) the steps run in the fixed
order: KPI generated and delivered to `kpimon` unconditionally, then a
handover generated and delivered to `traffic-steering` exactly when the
first trial is below 0.30, then QoE generated and delivered to
`qoe-predictor` unconditionally, then a control event generated and
delivered to `ran-control` exactly when the second trial is below 0.20,
then the sleep of the configured interval. -/
theorem simulation_tick_order (cfg : Config) (d : TickDraws)
    (h2 : 2 ≤ cfg.cells.length) (hnd : cfg.cells.Nodup) (hu : cfg.ues ≠ []) :
    ∃ (kpiR : KpiIndication) (hoR : HandoverEvent) (qoeR : QoeRecord)
      (ctrlR : ControlEvent),
      generate_kpi_indication cfg d.kpi = .ok kpiR ∧
      generate_handover_event cfg d.ho = .ok hoR ∧
      generate_qoe_metrics cfg d.qoe = .ok qoeR ∧
      generate_control_event cfg d.ctrl = .ok ctrlR ∧
      simulation_tick cfg d = .ok
        ([Event.sent "kpimon" (.kpi kpiR) (send_to_xapp cfg "kpimon" d.netKpi)]
          ++ (if d.hoRand < 3/10 then
                [Event.sent "traffic-steering" (.ho hoR)
                  (send_to_xapp cfg "traffic-steering" d.netHo)]
              else [])
          ++ [Event.sent "qoe-predictor" (.qoe qoeR)
                (send_to_xapp cfg "qoe-predictor" d.netQoe)]
          ++ (if d.ctrlRand < 1/5 then
                [Event.sent "ran-control" (.ctrl ctrlR)
                  (send_to_xapp cfg "ran-control" d.netCtrl)]
              else [])
          ++ [Event.slept cfg.interval]) :=
  simulation_tick_trace cfg d h2 hnd hu

/-- Witness for C7 at the concrete draws `td0` under `defaultConfig`. -/
theorem simulation_tick_order_witness :
    2 ≤ defaultConfig.cells.length ∧ defaultConfig.cells.Nodup ∧
    defaultConfig.ues ≠ [] ∧
    (∃ (kpiR : KpiIndication) (hoR : HandoverEvent) (qoeR : QoeRecord)
      (ctrlR : ControlEvent),
      generate_kpi_indication defaultConfig td0.kpi = .ok kpiR ∧
      generate_handover_event defaultConfig td0.ho = .ok hoR ∧
      generate_qoe_metrics defaultConfig td0.qoe = .ok qoeR ∧
      generate_control_event defaultConfig td0.ctrl = .ok ctrlR ∧
      simulation_tick defaultConfig td0 = .ok
        ([Event.sent "kpimon" (.kpi kpiR) (send_to_xapp defaultConfig "kpimon" td0.netKpi)]
          ++ (if td0.hoRand < 3/10 then
                [Event.sent "traffic-steering" (.ho hoR)
                  (send_to_xapp defaultConfig "traffic-steering" td0.netHo)]
              else [])
          ++ [Event.sent "qoe-predictor" (.qoe qoeR)
                (send_to_xapp defaultConfig "qoe-predictor" td0.netQoe)]
          ++ (if td0.ctrlRand < 1/5 then
                [Event.sent "ran-control" (.ctrl ctrlR)
                  (send_to_xapp defaultConfig "ran-control" td0.netCtrl)]
              else [])
          ++ [Event.slept defaultConfig.interval])) :=
  ⟨by decide, by decide, by decide,
   simulation_tick_order defaultConfig td0 (by decide) (by decide) (by decide)⟩

/-- C8: the running flag is observed before each tick; as soon as a
false reading is observed the loop's observable behaviour is exactly
that of the readings before it — no tick after the shutdown observation
runs and no further record is generated or delivered, whatever draws
would have followed. -/
theorem shutdown_stops_loop (cfg : Config) (pre : List (Bool × TickDraws))
    (d : TickDraws) (post : List (Bool × TickDraws)) :
    simulation_loop cfg (pre ++ (false, d) :: post) = simulation_loop cfg pre := by
  induction pre with
  | nil => rfl
  | cons p rest ih =>
    obtain ⟨b, dd⟩ := p
    cases b with
    | false => rfl
    | true => simp only [List.cons_append, simulation_loop, List.append_eq, ih]

/-- C2 is refuted on the code: with a single configured cell and a tick
whose handover trial fires, the `IndexError` raised inside
`generate_handover_event` propagates out of the tick — the QoE and
control steps of that tick never run — and terminates the loop. -/
theorem handover_config_error_kills_loop :
    simulation_tick oneCellConfig td0 = .error .indexError ∧
    simulation_loop oneCellConfig [(true, td0), (true, td0)] = .error .indexError := by
  have htick : simulation_tick oneCellConfig td0 = .error .indexError := by
    norm_num [simulation_tick, generate_kpi_indication, generate_handover_event,
      pyChoice, oneCellConfig, defaultConfig, td0, kd0, hd0, qd0, cd0, formatUe,
      pad3, pyInt, bind, Except.bind, pure, Except.pure, List.range']
  exact ⟨htick, by simp only [simulation_loop, bind_error htick]⟩

/-- C2 amended: no error arising in delivery ever terminates the loop —
with a well-formed configuration (at least two distinct cells and a
nonempty UE registry) every loop run ends normally in `.ok`, for every
sequence of flag readings, draws and network behaviours; the handover
configuration error of the counterexample is the one generation error
that aborts the remaining steps of its tick and kills the loop. -/
theorem loop_survives_delivery_errors (cfg : Config) (h2 : 2 ≤ cfg.cells.length)
    (hnd : cfg.cells.Nodup) (hu : cfg.ues ≠ []) :
    ∀ steps : List (Bool × TickDraws), ∃ es, simulation_loop cfg steps = .ok es := by
  intro steps
  induction steps with
  | nil => exact ⟨[], rfl⟩
  | cons p rest ih =>
    obtain ⟨b, dd⟩ := p
    cases b with
    | false => exact ⟨[], rfl⟩
    | true =>
      obtain ⟨es, hes⟩ := ih
      obtain ⟨kpiR, hoR, qoeR, ctrlR, -, -, -, -, htick⟩ :=
        simulation_tick_trace cfg dd h2 hnd hu
      apply Exists.intro
      simp only [simulation_loop, bind_ok htick, bind_ok hes]
      rfl

/-- Witness for the amended C2: a run whose every delivery hits a
connection failure still ends normally. -/
theorem loop_survives_delivery_errors_witness :
    ∃ es, simulation_loop defaultConfig [(true, tdFail)] = .ok es :=
  loop_survives_delivery_errors defaultConfig (by decide) (by decide) (by decide)
    [(true, tdFail)]
